import Mathlib

/-!
Verification of the trust-region Cauchy-point solver
(`src/solver/trustregion/cauchypoint.rs`) of the argmin optimization
engine, by a shallow embedding of its data model and operations.

Scalars of type `f64` are modelled by `F64`: either a finite rational
value or the non-finite element `F64.nan`.  Arithmetic on finite values
is exact rational arithmetic; any non-finite result of an operation
(IEEE-754 NaN, and likewise the infinities produced by dividing a
nonzero finite value by zero, which the claims under verification never
need to distinguish from NaN) is collapsed into `F64.nan`.  Comparisons
involving `F64.nan` are false and `F64.min` ignores a `nan` argument,
matching Rust `f64` comparison and `f64::min` semantics.
-/

/-- Model of a Rust `f64` scalar: a finite rational value, or the
non-finite element `nan` (covering IEEE NaN and infinities, which the
verified claims never distinguish). -/
inductive F64 where
  | nan : F64
  | fin : ℚ → F64
deriving DecidableEq, Repr

namespace F64

/-- Negation: `-x`. `nan` propagates. -/
def neg : F64 → F64
  | nan => nan
  | fin a => fin (-a)

/-- Multiplication: `x * y`. `nan` propagates. -/
def mul : F64 → F64 → F64
  | nan, _ => nan
  | _, nan => nan
  | fin a, fin b => fin (a * b)

/-- Division: `x / y`. `nan` propagates, and a finite value divided by
zero is non-finite (IEEE ±∞ or NaN, collapsed into `nan` here). -/
def div : F64 → F64 → F64
  | nan, _ => nan
  | _, nan => nan
  | fin a, fin b => if b = 0 then nan else fin (a / b)

/-- Comparison `x <= y` as in Rust: any comparison with NaN is false. -/
def le : F64 → F64 → Bool
  | fin a, fin b => decide (a ≤ b)
  | _, _ => false

/-- Rust `f64::min`: if one argument is NaN the other is returned. -/
def min : F64 → F64 → F64
  | nan, b => b
  | a, nan => a
  | fin a, fin b => fin (Min.min a b)

/-- Rust `f64::powi`: integer power. `NaN.powi 0 = 1`; otherwise `nan`
propagates. -/
def powi : F64 → ℕ → F64
  | _, 0 => fin 1
  | nan, _ + 1 => nan
  | fin a, n + 1 => fin (a ^ (n + 1))

end F64

/-- Modelled from the spec: the closed set of termination causes
(§3 TerminationReason); the source file uses only `NotTerminated` and
`MaxItersReached`. -/
inductive TerminationReason where
  | NotTerminated : TerminationReason
  | MaxItersReached : TerminationReason
  | TargetCostReached : TerminationReason
  | Converged : TerminationReason
  | Aborted : TerminationReason
deriving DecidableEq, Repr

/-- Modelled from the spec: the hard-failure channel (§7), an opaque
error value propagated unchanged; its payload is irrelevant to the
claims. -/
inductive Error where
  | mk : String → Error
deriving DecidableEq, Repr

/-- Modelled from the spec: the operator wrapper (§3 OperatorWrapper),
owning the user operator and three evaluation counters. -/
structure OpWrapper (O : Type) where
  op : O
  cost_func_count : ℕ
  grad_func_count : ℕ
  hessian_func_count : ℕ
deriving DecidableEq, Repr

/-- Modelled from the spec: the mutable iteration state (§3 IterState);
the Cauchy-point source reads only `cur_iter`. -/
structure IterState (P H : Type) where
  param : Option P
  cost : Option F64
  grad : Option P
  hessian : Option H
  cur_iter : ℕ
  max_iters : ℕ
  termination_reason : TerminationReason

/-- Modelled from the spec: a solver's sparse per-step output
(§3 IterationDelta), a record of optional updates. -/
structure ArgminIterData (P H : Type) where
  param : Option P
  cost : Option F64
  grad : Option P
  hessian : Option H
  termination_reason : Option TerminationReason
deriving DecidableEq, Repr

namespace ArgminIterData

/-- `ArgminIterData::new()`: all fields absent. -/
def new {P H : Type} : ArgminIterData P H :=
  { param := none, cost := none, grad := none, hessian := none,
    termination_reason := none }

/-- Builder `.param(p)`: record the new parameter. -/
def setParam {P H : Type} (d : ArgminIterData P H) (p : P) :
    ArgminIterData P H :=
  { d with param := some p }

end ArgminIterData

/-- The operations the trait bounds
`ArgminNorm<f64> + ArgminWeightedDot<P, f64, H> + ArgminMul<f64, P>`
provide on the parameter type `P`: Euclidean norm, matrix-weighted dot
product `gᵗHg`, and scalar multiplication. -/
structure VecOps (P H : Type) where
  norm : P → F64
  weighted_dot : P → H → P → F64
  mul : P → F64 → P

/-- The Cauchy-point solver's private state: trust-region radius and
snapshots of the current gradient and Hessian. -/
structure CauchyPoint (P H : Type) where
  radius : F64
  grad : P
  hessian : H
deriving DecidableEq, Repr

namespace CauchyPoint

/-- `CauchyPoint::new()`: radius is the NaN sentinel, gradient and
Hessian are the parameter types' default values. -/
def new {P H : Type} [Inhabited P] [Inhabited H] : CauchyPoint P H :=
  { radius := F64.nan, grad := default, hessian := default }

/-- `Solver::next_iter` for `CauchyPoint`: compute
`grad_norm = ‖g‖`, `wdp = gᵗHg`, the step fraction
`tau = if wdp <= 0 then 1 else min 1 (grad_norm³ / (radius·wdp))`, and
return `Ok` of a delta holding only the new parameter
`g.mul (-tau · radius / grad_norm)`.  The wrapper and state arguments
are unused (`_op`, `_state` in the source); the possibly-mutated wrapper
is returned alongside the result. -/
def next_iter {P H O : Type} (ops : VecOps P H) (s : CauchyPoint P H)
    (op : OpWrapper O) (_state : IterState P H) :
    OpWrapper O × Except Error (ArgminIterData P H) :=
  let grad_norm := ops.norm s.grad
  let wdp := ops.weighted_dot s.grad s.hessian s.grad
  let tau : F64 :=
    if wdp.le (F64.fin 0) then F64.fin 1
    else F64.min (F64.fin 1) ((grad_norm.powi 3).div (s.radius.mul wdp))
  let new_param := ops.mul s.grad ((tau.neg.mul s.radius).div grad_norm)
  (op, Except.ok (ArgminIterData.new.setParam new_param))

/-- `Solver::terminate` for `CauchyPoint`: `MaxItersReached` once
`state.cur_iter >= 1`, else `NotTerminated`. -/
def terminate {P H : Type} (_s : CauchyPoint P H) (state : IterState P H) :
    TerminationReason :=
  if 1 ≤ state.cur_iter then TerminationReason.MaxItersReached
  else TerminationReason.NotTerminated

/-- `ArgminTrustRegion::set_radius`: overwrite the radius field. -/
def set_radius {P H : Type} (s : CauchyPoint P H) (radius : F64) :
    CauchyPoint P H :=
  { s with radius := radius }

/-- `ArgminTrustRegion::set_grad`: overwrite the gradient snapshot. -/
def set_grad {P H : Type} (s : CauchyPoint P H) (grad : P) :
    CauchyPoint P H :=
  { s with grad := grad }

/-- `ArgminTrustRegion::set_hessian`: overwrite the Hessian snapshot. -/
def set_hessian {P H : Type} (s : CauchyPoint P H) (hessian : H) :
    CauchyPoint P H :=
  { s with hessian := hessian }

end CauchyPoint

/-- The step fraction of `next_iter` read in exact rational arithmetic,
for finite inputs: `tau = if wdp ≤ 0 then 1 else min 1 (gn³/(r·wdp))`. -/
def tauQ (r gn wdp : ℚ) : ℚ :=
  if wdp ≤ 0 then 1 else min 1 (gn ^ 3 / (r * wdp))

/-- The scalar coefficient `-tau · r / gn` applied to the gradient by
`next_iter`, read in exact rational arithmetic for finite inputs. -/
def coeffQ (r gn wdp : ℚ) : ℚ :=
  -(tauQ r gn wdp) * r / gn

/-- Instrumentation of `next_iter`: the divisor of each division the
step computation performs, in execution order, in exact arithmetic.
The interior branch (`¬ wdp ≤ 0`) divides `gn³` by `r·wdp`; both
branches then divide `-tau·r` by `gn`. -/
def next_iter_divisorsQ (r gn wdp : ℚ) : List ℚ :=
  (if wdp ≤ 0 then [] else [r * wdp]) ++ [gn]

/-- A concrete instantiation of the vector-space operations with scalar
parameters (`P = H = ℚ`): absolute value as norm, `g·h·g` as the
weighted dot product, and scalar multiplication (sending the non-finite
scalar to an arbitrary value, `0`). -/
def opsQ : VecOps ℚ ℚ where
  norm p := F64.fin |p|
  weighted_dot a h b := F64.fin (a * h * b)
  mul p c := match c with
    | F64.fin q => p * q
    | F64.nan => 0

/-- A concrete operator wrapper over a trivial operator. -/
def wrapQ : OpWrapper Unit :=
  { op := (), cost_func_count := 0, grad_func_count := 0,
    hessian_func_count := 0 }

/-- A second concrete operator wrapper, over a different operator type. -/
def wrapN : OpWrapper ℕ :=
  { op := 0, cost_func_count := 0, grad_func_count := 0,
    hessian_func_count := 0 }

/-- A concrete iteration state with `cur_iter = 0`. -/
def stQ : IterState ℚ ℚ :=
  { param := none, cost := none, grad := none, hessian := none,
    cur_iter := 0, max_iters := 1,
    termination_reason := TerminationReason.NotTerminated }

/-- A concrete iteration state with `cur_iter = 1`. -/
def stQ1 : IterState ℚ ℚ :=
  { stQ with cur_iter := 1 }

/-- Concrete solver state for the interior branch: radius `10`,
gradient `1` (norm `1`), Hessian `4` (so `wdp = 4`). -/
def cpInterior : CauchyPoint ℚ ℚ :=
  { radius := F64.fin 10, grad := 1, hessian := 4 }

/-- Concrete solver state for the boundary branch: radius `1`,
gradient `2` (norm `2`), Hessian `-5/4` (so `wdp = 2·(-5/4)·2 = -5`). -/
def cpBoundary : CauchyPoint ℚ ℚ :=
  { radius := F64.fin 1, grad := 2, hessian := -5/4 }

/-- Concrete solver state with a zero gradient (norm `0`). -/
def cpZeroGrad : CauchyPoint ℚ ℚ :=
  { radius := F64.fin 1, grad := 0, hessian := 1 }

/-- C4: `CauchyPoint::terminate` returns `NotTerminated` when the
state's current iteration index is `0` and `MaxItersReached` when the
index is at least `1`, regardless of every other field of the state. -/
theorem cauchy_terminate_single_shot {P H : Type} (s : CauchyPoint P H)
    (st : IterState P H) :
    (st.cur_iter = 0 → s.terminate st = TerminationReason.NotTerminated) ∧
    (1 ≤ st.cur_iter → s.terminate st = TerminationReason.MaxItersReached) := by
  constructor <;> intro h <;> simp [CauchyPoint.terminate, h]

/-- Witness for C4 at concrete states with `cur_iter = 0` and
`cur_iter = 1`. -/
theorem cauchy_terminate_single_shot_witness :
    stQ.cur_iter = 0 ∧
    (CauchyPoint.mk (P := ℚ) (H := ℚ) F64.nan 0 0).terminate stQ =
      TerminationReason.NotTerminated ∧
    1 ≤ stQ1.cur_iter ∧
    (CauchyPoint.mk (P := ℚ) (H := ℚ) F64.nan 0 0).terminate stQ1 =
      TerminationReason.MaxItersReached :=
  ⟨rfl, (cauchy_terminate_single_shot _ stQ).1 rfl, le_refl 1,
    (cauchy_terminate_single_shot _ stQ1).2 (le_refl 1)⟩

/-- C5: `CauchyPoint::next_iter` never returns the `Error` variant: for
every stored radius, gradient and Hessian (and every wrapper, state and
vector-space operations, so in particular for non-positive curvature),
the result is `Ok`. -/
theorem cauchy_next_iter_no_error {P H O : Type} (ops : VecOps P H)
    (s : CauchyPoint P H) (op : OpWrapper O) (st : IterState P H) :
    ((CauchyPoint.next_iter ops s op st).2).isOk = true :=
  rfl

/-- C8: `next_iter` leaves the operator wrapper (hence its three
evaluation counters) unchanged, and the returned delta holds only a new
parameter: its cost, gradient, Hessian and forced-termination fields
are all absent. -/
theorem cauchy_next_iter_frame {P H O : Type} (ops : VecOps P H)
    (s : CauchyPoint P H) (op : OpWrapper O) (st : IterState P H) :
    (CauchyPoint.next_iter ops s op st).1 = op ∧
    ∃ d, (CauchyPoint.next_iter ops s op st).2 = Except.ok d ∧
      d.param.isSome = true ∧ d.cost = none ∧ d.grad = none ∧
      d.hessian = none ∧ d.termination_reason = none :=
  ⟨rfl, _, rfl, rfl, rfl, rfl, rfl, rfl⟩

/-- C9: each setter overwrites exactly its own field and leaves the
other two solver fields unchanged. -/
theorem cauchy_setters_frame {P H : Type} (s : CauchyPoint P H) (r : F64)
    (g : P) (h : H) :
    (s.set_radius r).radius = r ∧ (s.set_radius r).grad = s.grad ∧
      (s.set_radius r).hessian = s.hessian ∧
    (s.set_grad g).grad = g ∧ (s.set_grad g).radius = s.radius ∧
      (s.set_grad g).hessian = s.hessian ∧
    (s.set_hessian h).hessian = h ∧ (s.set_hessian h).radius = s.radius ∧
      (s.set_hessian h).grad = s.grad :=
  ⟨rfl, rfl, rfl, rfl, rfl, rfl, rfl, rfl, rfl⟩

/-- C10: `CauchyPoint::new` sets the radius to the NaN sentinel and the
gradient and Hessian snapshots to their types' default values; a
`next_iter` call made on the freshly constructed solver (before
`set_radius`) still returns `Ok`, computing through the NaN radius
rather than failing. -/
theorem cauchy_new_nan_radius {P H O : Type} [Inhabited P] [Inhabited H]
    (ops : VecOps P H) (op : OpWrapper O) (st : IterState P H) :
    (CauchyPoint.new : CauchyPoint P H).radius = F64.nan ∧
    (CauchyPoint.new : CauchyPoint P H).grad = default ∧
    (CauchyPoint.new : CauchyPoint P H).hessian = default ∧
    ((CauchyPoint.next_iter ops CauchyPoint.new op st).2).isOk = true :=
  ⟨rfl, rfl, rfl, rfl⟩

/-- C1: in the interior branch (finite stored values, gradient norm
`gn > 0`, weighted dot product `wdp > 0`, radius `r ≠ 0` so the
fraction is well defined), the step fraction is
`tau = min 1 (gn³ / (r·wdp))` and the returned delta's parameter is
`g.mul (-tau · r / gn)`; concretely, for `gn = 1`, `wdp = 4`, `r = 10`
the fraction is `1/40 = 0.025` and the coefficient is `-1/4`. -/
theorem cauchy_interior_branch {P H O : Type} (ops : VecOps P H)
    (s : CauchyPoint P H) (op : OpWrapper O) (st : IterState P H)
    (r gn wdp : ℚ) (hr : s.radius = F64.fin r) (hr0 : r ≠ 0)
    (hn : ops.norm s.grad = F64.fin gn) (hgn : 0 < gn)
    (hw : ops.weighted_dot s.grad s.hessian s.grad = F64.fin wdp)
    (hwpos : 0 < wdp) :
    tauQ r gn wdp = min 1 (gn ^ 3 / (r * wdp)) ∧
    (CauchyPoint.next_iter ops s op st).2 =
      Except.ok (ArgminIterData.new.setParam
        (ops.mul s.grad (F64.fin (coeffQ r gn wdp)))) ∧
    tauQ 10 1 4 = 1 / 40 ∧ coeffQ 10 1 4 = -(1 / 4) := by
  have hwle : ¬ wdp ≤ 0 := not_le.mpr hwpos
  have hrw : r * wdp ≠ 0 := mul_ne_zero hr0 (ne_of_gt hwpos)
  have hgn0 : gn ≠ 0 := ne_of_gt hgn
  refine ⟨by simp [tauQ, hwle], ?_, by norm_num [tauQ, min_def],
    by norm_num [coeffQ, tauQ, min_def]⟩
  simp [CauchyPoint.next_iter, hr, hn, hw, F64.le, hwle, F64.powi,
    F64.mul, F64.div, hrw, F64.min, F64.neg, hgn0, coeffQ, tauQ]

/-- Witness for C1 at the concrete interior-branch instance
(`r = 10`, `gn = 1`, `wdp = 4`). -/
theorem cauchy_interior_branch_witness :
    tauQ 10 1 4 = min 1 ((1:ℚ) ^ 3 / (10 * 4)) ∧
    (CauchyPoint.next_iter opsQ cpInterior wrapQ stQ).2 =
      Except.ok (ArgminIterData.new.setParam
        (opsQ.mul cpInterior.grad (F64.fin (coeffQ 10 1 4)))) ∧
    tauQ 10 1 4 = 1 / 40 ∧ coeffQ 10 1 4 = -(1 / 4) :=
  cauchy_interior_branch opsQ cpInterior wrapQ stQ 10 1 4 rfl
    (by norm_num) (by simp [opsQ, cpInterior]) (by norm_num)
    (by simp [opsQ, cpInterior]) (by norm_num)

/-- C2: in the boundary branch (finite stored values, gradient norm
`gn > 0`, weighted dot product `wdp ≤ 0`), the step fraction is
`tau = 1` and the returned delta's parameter is `g.mul (-r / gn)`;
concretely, for `gn = 2`, `wdp = -5`, `r = 1` the coefficient is
`-1/2`. -/
theorem cauchy_boundary_branch {P H O : Type} (ops : VecOps P H)
    (s : CauchyPoint P H) (op : OpWrapper O) (st : IterState P H)
    (r gn wdp : ℚ) (hr : s.radius = F64.fin r)
    (hn : ops.norm s.grad = F64.fin gn) (hgn : 0 < gn)
    (hw : ops.weighted_dot s.grad s.hessian s.grad = F64.fin wdp)
    (hwle : wdp ≤ 0) :
    tauQ r gn wdp = 1 ∧
    (CauchyPoint.next_iter ops s op st).2 =
      Except.ok (ArgminIterData.new.setParam
        (ops.mul s.grad (F64.fin (-r / gn)))) ∧
    coeffQ 1 2 (-5) = -(1 / 2) := by
  have hgn0 : gn ≠ 0 := ne_of_gt hgn
  refine ⟨by simp [tauQ, hwle], ?_, by norm_num [coeffQ, tauQ]⟩
  simp [CauchyPoint.next_iter, hr, hn, hw, F64.le, hwle, F64.neg,
    F64.mul, F64.div, hgn0]

/-- Witness for C2 at the concrete boundary-branch instance
(`r = 1`, `gn = 2`, `wdp = -5`). -/
theorem cauchy_boundary_branch_witness :
    tauQ 1 2 (-5) = 1 ∧
    (CauchyPoint.next_iter opsQ cpBoundary wrapQ stQ).2 =
      Except.ok (ArgminIterData.new.setParam
        (opsQ.mul cpBoundary.grad (F64.fin (-1 / 2)))) ∧
    coeffQ 1 2 (-5) = -(1 / 2) :=
  cauchy_boundary_branch opsQ cpBoundary wrapQ stQ 1 2 (-5) rfl
    (by simp [opsQ, cpBoundary]) (by norm_num)
    (by simp [opsQ, cpBoundary]; norm_num) (by norm_num)

/-- C3: with a positive finite radius `r`, a positive finite gradient
norm `gn`, and the vector-space law `‖c·g‖ = |c|·‖g‖` for scalar
multiples of the stored gradient, the parameter update returned by
`next_iter` has norm at most `r` — the step never leaves the trust
region (whatever the stored Hessian, finite or not). -/
theorem cauchy_step_within_radius {P H O : Type} (ops : VecOps P H)
    (s : CauchyPoint P H) (op : OpWrapper O) (st : IterState P H)
    (r gn : ℚ) (hr : s.radius = F64.fin r) (hrpos : 0 < r)
    (hn : ops.norm s.grad = F64.fin gn) (hgn : 0 < gn)
    (hlaw : ∀ c : ℚ,
      ops.norm (ops.mul s.grad (F64.fin c)) = F64.fin (|c| * gn)) :
    ∃ q pn, (CauchyPoint.next_iter ops s op st).2 =
        Except.ok (ArgminIterData.new.setParam q) ∧
      ops.norm q = F64.fin pn ∧ pn ≤ r := by
  have hgn0 : gn ≠ 0 := ne_of_gt hgn
  have key : ∃ t : ℚ, 0 < t ∧ t ≤ 1 ∧
      (CauchyPoint.next_iter ops s op st).2 =
        Except.ok (ArgminIterData.new.setParam
          (ops.mul s.grad (F64.fin (-t * r / gn)))) := by
    rcases hwv : ops.weighted_dot s.grad s.hessian s.grad with _ | w
    · refine ⟨1, one_pos, le_refl 1, ?_⟩
      simp [CauchyPoint.next_iter, hr, hn, hwv, F64.le, F64.neg,
        F64.mul, F64.div, F64.powi, F64.min, hgn0]
    · by_cases hwle : w ≤ 0
      · refine ⟨1, one_pos, le_refl 1, ?_⟩
        simp [CauchyPoint.next_iter, hr, hn, hwv, F64.le, hwle,
          F64.neg, F64.mul, F64.div, hgn0]
      · have hwpos : 0 < w := not_le.mp hwle
        have hrw : r * w ≠ 0 := mul_ne_zero (ne_of_gt hrpos) (ne_of_gt hwpos)
        refine ⟨min 1 (gn ^ 3 / (r * w)), lt_min one_pos (by positivity),
          min_le_left _ _, ?_⟩
        simp [CauchyPoint.next_iter, hr, hn, hwv, F64.le, hwle,
          F64.powi, F64.mul, F64.div, hrw, F64.min, F64.neg, hgn0]
  obtain ⟨t, ht0, ht1, heq⟩ := key
  refine ⟨_, |(-t * r / gn)| * gn, heq, hlaw _, ?_⟩
  have habs : |(-t * r / gn)| = t * r / gn := by
    rw [show -t * r / gn = -(t * r / gn) by ring, abs_neg,
      abs_of_nonneg (by positivity)]
  rw [habs, div_mul_cancel₀ _ hgn0]
  calc t * r ≤ 1 * r := mul_le_mul_of_nonneg_right ht1 (le_of_lt hrpos)
    _ = r := one_mul r

/-- Witness for C3 at the concrete interior-branch instance. -/
theorem cauchy_step_within_radius_witness :
    (0:ℚ) < 10 ∧ (0:ℚ) < 1 ∧
    ∃ q pn, (CauchyPoint.next_iter opsQ cpInterior wrapQ stQ).2 =
        Except.ok (ArgminIterData.new.setParam q) ∧
      opsQ.norm q = F64.fin pn ∧ pn ≤ 10 :=
  ⟨by norm_num, by norm_num,
    cauchy_step_within_radius opsQ cpInterior wrapQ stQ 10 1 rfl
      (by norm_num) (by simp [opsQ, cpInterior]) (by norm_num)
      (fun c => by simp [opsQ, cpInterior])⟩

/-- C6: `next_iter` performs its divisions unguarded against a zero
gradient: with `gn = 0` one of its divisors is `0`; with `gn ≠ 0` all
its divisors are nonzero exactly when the interior-branch divisor
`r·wdp` is nonzero, i.e. when `0 < wdp` implies `r ≠ 0` (the branch
guards on `wdp > 0` only, never on the radius or the gradient); and a
call with a zero-norm stored gradient computes straight through the
division, returning the gradient scaled by the non-finite scalar. -/
theorem cauchy_division_preconditions {P H O : Type} (ops : VecOps P H)
    (s : CauchyPoint P H) (op : OpWrapper O) (st : IterState P H)
    (r gn wdp : ℚ) :
    (0:ℚ) ∈ next_iter_divisorsQ r 0 wdp ∧
    (gn ≠ 0 → ((∀ d ∈ next_iter_divisorsQ r gn wdp, d ≠ 0) ↔
      (0 < wdp → r ≠ 0))) ∧
    (ops.norm s.grad = F64.fin 0 →
      (CauchyPoint.next_iter ops s op st).2 =
        Except.ok (ArgminIterData.new.setParam
          (ops.mul s.grad F64.nan))) := by
  refine ⟨by simp [next_iter_divisorsQ], ?_, ?_⟩
  · intro hgn
    by_cases hwle : wdp ≤ 0
    · simp [next_iter_divisorsQ, hwle, hgn, not_lt.mpr hwle]
    · have hwpos : 0 < wdp := not_le.mp hwle
      simp [next_iter_divisorsQ, hwle, hgn, hwpos,
        mul_ne_zero_iff, ne_of_gt hwpos]
  · intro h0
    rcases hwv : ops.weighted_dot s.grad s.hessian s.grad with _ | w
    · rcases hrv : s.radius with _ | rv <;>
        simp [CauchyPoint.next_iter, h0, hwv, hrv, F64.le, F64.powi,
          F64.mul, F64.div, F64.min, F64.neg]
    · by_cases hwle : w ≤ 0
      · rcases hrv : s.radius with _ | rv <;>
          simp [CauchyPoint.next_iter, h0, hwv, hrv, hwle, F64.le,
            F64.mul, F64.div, F64.neg]
      · rcases hrv : s.radius with _ | rv
        · simp [CauchyPoint.next_iter, h0, hwv, hrv, hwle, F64.le,
            F64.powi, F64.mul, F64.div, F64.min, F64.neg]
        · by_cases hrw : rv * w = 0 <;>
            simp [CauchyPoint.next_iter, h0, hwv, hrv, hwle, F64.le,
              F64.powi, F64.mul, F64.div, F64.min, F64.neg, hrw]

/-- Witness for C6 at concrete divisor inputs and a concrete
zero-gradient solver state. -/
theorem cauchy_division_preconditions_witness :
    (0:ℚ) ∈ next_iter_divisorsQ 1 0 1 ∧
    ((∀ d ∈ next_iter_divisorsQ 1 1 1, d ≠ 0) ↔
      ((0:ℚ) < 1 → (1:ℚ) ≠ 0)) ∧
    (CauchyPoint.next_iter opsQ cpZeroGrad wrapQ stQ).2 =
      Except.ok (ArgminIterData.new.setParam
        (opsQ.mul cpZeroGrad.grad F64.nan)) :=
  ⟨(cauchy_division_preconditions opsQ cpZeroGrad wrapQ stQ 1 0 1).1,
    (cauchy_division_preconditions opsQ cpZeroGrad wrapQ stQ 1 1 1).2.1
      (by norm_num),
    (cauchy_division_preconditions opsQ cpZeroGrad wrapQ stQ 1 1 1).2.2
      (by simp [opsQ, cpZeroGrad])⟩

/-- C7: `next_iter` is deterministic and reads nothing but the three
solver-private fields: two calls with field-equal solver states, any
wrappers (even over different operator types) and any iteration states
return equal results. -/
theorem cauchy_next_iter_deterministic {P H O O2 : Type}
    (ops : VecOps P H) (s s2 : CauchyPoint P H)
    (h1 : s.radius = s2.radius) (h2 : s.grad = s2.grad)
    (h3 : s.hessian = s2.hessian) (op : OpWrapper O) (op2 : OpWrapper O2)
    (st st2 : IterState P H) :
    (CauchyPoint.next_iter ops s op st).2 =
      (CauchyPoint.next_iter ops s2 op2 st2).2 := by
  simp only [CauchyPoint.next_iter, h1, h2, h3]

/-- Witness for C7: equal concrete solver fields, different wrappers
(over different operator types) and different states. -/
theorem cauchy_next_iter_deterministic_witness :
    (CauchyPoint.next_iter opsQ cpInterior wrapQ stQ).2 =
      (CauchyPoint.next_iter opsQ cpInterior wrapN stQ1).2 :=
  cauchy_next_iter_deterministic opsQ cpInterior cpInterior rfl rfl rfl
    wrapQ wrapN stQ stQ1
